import Mathlib

/-!
# PharmaClear — verification of the settlement and rebate-accrual core

Shallow embedding of the PharmaClear smart contracts
(`smart_contracts/layer0_ingestion.py`, `layer0_enhanced.py`,
`layer1_rebate.py`, `layer2_escrow.py`, `layer4_governance.py`,
`layer5_crossborder.py`).  Each Algorand `BoxMap` is modelled as an
association list with first-match lookup and prepend insertion (prepend
gives the same overwrite semantics as `BoxMap.__setitem__`).  An `assert`
in a contract method aborts the whole transaction group with no state
change; we model every method as a function returning `Except Err (State × …)`,
where the error case corresponds to the aborted group.
-/

namespace PharmaClear

/-! ## Association-list finite maps (model of algopy BoxMap) -/

/-- First-match lookup in an association list. -/
def fmFind {K V : Type} [DecidableEq K] : List (K × V) → K → Option V
  | [], _ => none
  | (k', v) :: rest, k => if k' = k then some v else fmFind rest k

/-- Insertion by prepending; together with first-match lookup this is
overwrite semantics, as in `BoxMap.__setitem__`. -/
def fmInsert {K V : Type} (m : List (K × V)) (k : K) (v : V) : List (K × V) :=
  (k, v) :: m

/-- Membership test, model of the `in` operator on a BoxMap. -/
def fmContains {K V : Type} [DecidableEq K] (m : List (K × V)) (k : K) : Bool :=
  (fmFind m k).isSome

theorem fmFind_insert_self {K V : Type} [DecidableEq K]
    (m : List (K × V)) (k : K) (v : V) :
    fmFind (fmInsert m k v) k = some v := by
  simp [fmInsert, fmFind]

theorem fmFind_insert_ne {K V : Type} [DecidableEq K]
    (m : List (K × V)) (k k' : K) (v : V) (h : k ≠ k') :
    fmFind (fmInsert m k v) k' = fmFind m k' := by
  simp [fmInsert, fmFind, h]

/-! ## Byte-level helpers

Strings are modelled as their character-code byte sequences and an
`arc4.UInt64`'s `.bytes` as the 8-byte big-endian encoding, mirroring the
byte concatenation done in `submit_claim` / `submit_claim_enhanced`. -/

def strBytes (s : String) : List Nat := s.data.map Char.toNat

def u64Bytes (n : Nat) : List Nat :=
  [n / 2 ^ 56 % 256, n / 2 ^ 48 % 256, n / 2 ^ 40 % 256, n / 2 ^ 32 % 256,
   n / 2 ^ 24 % 256, n / 2 ^ 16 % 256, n / 2 ^ 8 % 256, n % 256]

/-! ## Layer 0: ClaimIngestionContract (`layer0_ingestion.py`)

`op.sha256` is modelled as an arbitrary function `hash : List Nat → List Nat`
passed explicitly: the claims in scope depend only on the hash being a
deterministic function of its input, which any Lean function is. -/

structure IngestState where
  claim_hashes : List (List Nat × Bool)
  claim_records : List (List Nat × String)
deriving DecidableEq, Repr

def IngestState.init : IngestState := ⟨[], []⟩

inductive IngestErr
  | AuthenticationMissing
  | DuplicateClaim
deriving DecidableEq, Repr

/-- The `claim_data` byte concatenation of `submit_claim` (line 65). -/
def claimData (claim_id ndc_code pharmacy_npi : String) (dispense_date : Nat)
    (oracle_sig : List Nat) : List Nat :=
  strBytes claim_id ++ strBytes ndc_code ++ strBytes pharmacy_npi ++
    u64Bytes dispense_date ++ oracle_sig

/-- `claim_key = sha256(claim_data)` of `submit_claim` (line 72). -/
def claimFingerprint (hash : List Nat → List Nat)
    (claim_id ndc_code pharmacy_npi : String) (dispense_date : Nat)
    (oracle_sig : List Nat) : List Nat :=
  hash (claimData claim_id ndc_code pharmacy_npi dispense_date oracle_sig)

/-- The stored metadata string of `submit_claim` (lines 82–85). -/
def claimMetadata (claim_id ndc_code pharmacy_npi : String)
    (dispense_date : Nat) : String :=
  "\x7b\x22claim_id\x22:\x22" ++ claim_id ++ "\x22,\x22ndc\x22:\x22" ++ ndc_code ++
    "\x22,\x22npi\x22:\x22" ++ pharmacy_npi ++ "\x22,\x22date\x22:" ++
    toString dispense_date ++ "\x7d"

/-- `submit_claim` (layer0_ingestion.py, lines 36–98). -/
def submit_claim (hash : List Nat → List Nat) (st : IngestState)
    (claim_id ndc_code pharmacy_npi : String) (dispense_date : Nat)
    (oracle_sig : List Nat) : Except IngestErr (IngestState × List Nat) :=
  if oracle_sig.length = 0 then .error .AuthenticationMissing
  else
    let claim_key := claimFingerprint hash claim_id ndc_code pharmacy_npi
      dispense_date oracle_sig
    if fmContains st.claim_hashes claim_key then .error .DuplicateClaim
    else
      .ok (⟨fmInsert st.claim_hashes claim_key true,
            fmInsert st.claim_records claim_key
              (claimMetadata claim_id ndc_code pharmacy_npi dispense_date)⟩,
           claim_key)

/-- `verify_claim` (layer0_ingestion.py, lines 100–111). -/
def verify_claim (st : IngestState) (claim_key : List Nat) : Bool :=
  (fmFind st.claim_hashes claim_key).getD false

/-- State transition induced by `submit_claim`: an aborted group leaves the
ledger state untouched. -/
def submitClaimStep (hash : List Nat → List Nat) (st : IngestState)
    (claim_id ndc_code pharmacy_npi : String) (dispense_date : Nat)
    (oracle_sig : List Nat) : IngestState :=
  match submit_claim hash st claim_id ndc_code pharmacy_npi dispense_date oracle_sig with
  | .ok (st', _) => st'
  | .error _ => st

/-! ## Layer 2: EscrowSettlementContract (`layer2_escrow.py`)

`claim_rebate` is modelled as a function returning the list of inner value
transfers issued so far together with an optional abort: the function is
written in the source's statement order, so each failing `assert` returns
the transfers already submitted at that point. -/

inductive TxnType
  | payment
  | assetTransfer
  | applicationCall
  | other
deriving DecidableEq, Repr

/-- A transaction in the atomic group, as read through `gtxn.Transaction`. -/
structure GroupTxn where
  type : TxnType
  amount : Nat
deriving DecidableEq, Repr

/-- Global state set by the escrow contract's `initialize` method. -/
structure EscrowState where
  usdc_asset_id : Nat
  admin_fee_cap : Nat
deriving DecidableEq, Repr

/-- An inner `itxn.AssetTransfer`. -/
structure Transfer where
  xfer_asset : Nat
  asset_amount : Nat
  asset_receiver : String
deriving DecidableEq, Repr

inductive EscrowErr
  | FeeCapTooHigh
  | NotInAtomicGroup
  | OracleIndexOutOfRange
  | InvalidOracleTransaction
  | FeeCapExceeded
deriving DecidableEq, Repr

/-- The escrow contract's one-time configuration method
(layer2_escrow.py, lines 30–55; the Lean name avoids a clash with the
cross-border layer). -/
def escrowInitialize (usdc_asset_id admin_fee_cap_bps : Nat) :
    Except EscrowErr EscrowState :=
  if admin_fee_cap_bps ≤ 300 then
    .ok ⟨usdc_asset_id, admin_fee_cap_bps⟩
  else .error .FeeCapTooHigh

/-- `claim_rebate` (layer2_escrow.py, lines 57–145).  Returns the inner
transfers issued before the method completed or aborted, and the abort
cause if any.  `group` is the atomic transaction group; `gtxn.Transaction`
on an out-of-range index fails the program, modelled as
`OracleIndexOutOfRange`.  The two oracle asserts (payment type, stake
≥ 1000) both surface as `InvalidOracleTransaction`. -/
def claim_rebate (st : EscrowState) (group : List GroupTxn)
    (rebate_amount : Nat) (pharmacy_addr pbm_addr : String)
    (oracle_txn_index : Nat) : List Transfer × Option EscrowErr :=
  if ¬ group.length > 1 then ([], some .NotInAtomicGroup)
  else
    match group.get? oracle_txn_index with
    | none => ([], some .OracleIndexOutOfRange)
    | some oracle_txn =>
      if oracle_txn.type ≠ TxnType.payment then ([], some .InvalidOracleTransaction)
      else if ¬ oracle_txn.amount ≥ 1000 then ([], some .InvalidOracleTransaction)
      else
        let admin_fee := rebate_amount * st.admin_fee_cap / 10000
        let max_allowed_fee := rebate_amount * 300 / 10000
        if ¬ admin_fee ≤ max_allowed_fee then ([], some .FeeCapExceeded)
        else
          let pharmacy_payout := rebate_amount - admin_fee
          let txn1 : Transfer := ⟨st.usdc_asset_id, pharmacy_payout, pharmacy_addr⟩
          if admin_fee > 0 then
            ([txn1, ⟨st.usdc_asset_id, admin_fee, pbm_addr⟩], none)
          else ([txn1], none)

/-! ## Layer 1: RebateEngineContract (`layer1_rebate.py`)

The schedule `DynamicArray [base_bps, threshold, bonus_bps]` is modelled as
a triple; manufacturer addresses as strings. -/

structure RebateState where
  tier_schedules : List (String × (Nat × Nat × Nat))
  accrued_liabilities : List (List Nat × Nat)
  total_accrued : List (String × Nat)
deriving DecidableEq, Repr

def RebateState.init : RebateState := ⟨[], [], []⟩

inductive RebateErr
  | ManufacturerNotRegistered
  | TotalAccruedMissing
deriving DecidableEq, Repr

/-- `register_schedule` (layer1_rebate.py, lines 38–84).  The
`excludes_biosimilars` flag only triggers a warning event and does not
affect state; registration never fails. -/
def register_schedule (st : RebateState) (manufacturer : String)
    (base_bps threshold bonus_bps : Nat) (excludes_biosimilars : Bool) :
    RebateState :=
  let sched := fmInsert st.tier_schedules manufacturer (base_bps, threshold, bonus_bps)
  let st1 := { st with tier_schedules := sched }
  if fmContains st.total_accrued manufacturer then st1
  else { st1 with total_accrued := fmInsert st1.total_accrued manufacturer 0 }

/-- `calculate_accrual` (layer1_rebate.py, lines 86–149).  The unguarded
read `self.total_accrued[manufacturer]` on line 136 fails the program when
the box is absent; this is modelled as the `TotalAccruedMissing` error. -/
def calculate_accrual (st : RebateState) (claim_key : List Nat)
    (manufacturer : String) (wac_price current_volume : Nat) :
    Except RebateErr (RebateState × Nat) :=
  match fmFind st.tier_schedules manufacturer with
  | none => .error .ManufacturerNotRegistered
  | some (base_bps, threshold, bonus_bps) =>
    let effective_rate := if current_volume > threshold
      then base_bps + bonus_bps else base_bps
    let rebate_amount := wac_price * effective_rate / 10000
    let liab := fmInsert st.accrued_liabilities claim_key rebate_amount
    let st1 := { st with accrued_liabilities := liab }
    match fmFind st1.total_accrued manufacturer with
    | none => .error .TotalAccruedMissing
    | some current_total =>
      let tot := fmInsert st1.total_accrued manufacturer (current_total + rebate_amount)
      .ok ({ st1 with total_accrued := tot }, rebate_amount)

/-- `get_manufacturer_total` (layer1_rebate.py, lines 165–176): defaults
to 0 for an unknown manufacturer. -/
def get_manufacturer_total (st : RebateState) (manufacturer : String) : Nat :=
  (fmFind st.total_accrued manufacturer).getD 0

/-- The state-mutating operations of the RebateEngine.  `get_accrual` and
`get_manufacturer_total` are readonly and cannot change any total. -/
inductive RebateOp
  | register (manufacturer : String) (base_bps threshold bonus_bps : Nat)
      (excludes_biosimilars : Bool)
  | accrue (claim_key : List Nat) (manufacturer : String)
      (wac_price current_volume : Nat)

/-- One RebateEngine call: a failing call aborts its group and leaves the
state unchanged. -/
def rebateStep (st : RebateState) : RebateOp → RebateState
  | .register m b t bo e => register_schedule st m b t bo e
  | .accrue k m w v =>
    match calculate_accrual st k m w v with
    | .ok (st', _) => st'
    | .error _ => st

/-! ## Layer 4: GovernanceContract (`layer4_governance.py`)

Proposal statuses are the literal strings used by the source:
"ACTIVE", "PASSED", "REJECTED", "QUORUM_NOT_MET".  Addresses are strings. -/

structure GovState where
  proposals : List (Nat × String)
  proposal_votes : List (Nat × Nat)
  proposal_votes_against : List (Nat × Nat)
  proposal_status : List (Nat × String)
  voter_power : List (String × Nat)
  voter_history : List (String × List Nat)
  approved_oracles : List (String × Bool)
  oracle_reputation : List (String × Nat)
  disputes : List (List Nat × String)
  dispute_resolutions : List (List Nat × String)
  fee_proposals : List (Nat × Nat)
  proposal_counter : Nat
  quorum_threshold : Nat
  approval_threshold : Nat
deriving DecidableEq, Repr

/-- `__init__` (layer4_governance.py, lines 54–70). -/
def GovState.init : GovState :=
  ⟨[], [], [], [], [], [], [], [], [], [], [], 0, 10000, 6667⟩

inductive GovErr
  | ApprovalTooHigh
  | ApprovalTooLow
  | ProposalNotFound
  | ProposalNotActive
  | NoVotingPower
deriving DecidableEq, Repr

/-- `initialize_governance` (layer4_governance.py, lines 72–96). -/
def initialize_governance (st : GovState) (quorum approval_pct : Nat) :
    Except GovErr GovState :=
  if ¬ approval_pct ≤ 10000 then .error .ApprovalTooHigh
  else if ¬ approval_pct ≥ 5000 then .error .ApprovalTooLow
  else .ok { st with quorum_threshold := quorum, approval_threshold := approval_pct }

/-- The metadata string written by `create_proposal` (lines 121–127). -/
def proposalMetadata (proposal_type description : String) (target_value : Nat)
    (sender : String) (now : Nat) : String :=
  "\x7b\x22type\x22:\x22" ++ proposal_type ++ "\x22,\x22description\x22:\x22" ++
    description ++ "\x22,\x22value\x22:" ++ toString target_value ++
    ",\x22proposer\x22:\x22" ++ sender ++ "\x22,\x22timestamp\x22:" ++
    toString now ++ "\x7d"

/-- `create_proposal` (layer4_governance.py, lines 98–148): allocates
`proposal_counter + 1`, stores metadata, sets status ACTIVE, zeroes both
tallies; records a fee proposal when the type is "FEE_ADJUSTMENT". -/
def create_proposal (st : GovState) (proposal_type description : String)
    (target_value : Nat) (sender : String) (now : Nat) : GovState × Nat :=
  let proposal_id := st.proposal_counter + 1
  let meta := proposalMetadata proposal_type description target_value sender now
  let st1 : GovState :=
    { st with
      proposal_counter := proposal_id
      proposals := fmInsert st.proposals proposal_id meta
      proposal_status := fmInsert st.proposal_status proposal_id "ACTIVE"
      proposal_votes := fmInsert st.proposal_votes proposal_id 0
      proposal_votes_against := fmInsert st.proposal_votes_against proposal_id 0 }
  if proposal_type = "FEE_ADJUSTMENT" then
    ({ st1 with fee_proposals := fmInsert st1.fee_proposals proposal_id target_value },
     proposal_id)
  else (st1, proposal_id)

/-- `vote` (layer4_governance.py, lines 150–200). -/
def vote (st : GovState) (sender : String) (proposal_id : Nat)
    (vote_yes : Bool) (vote_power : Nat) : Except GovErr GovState :=
  if ¬ fmContains st.proposal_status proposal_id then .error .ProposalNotFound
  else if fmFind st.proposal_status proposal_id ≠ some "ACTIVE" then
    .error .ProposalNotActive
  else if ¬ vote_power > 0 then .error .NoVotingPower
  else
    let st1 : GovState :=
      if vote_yes then
        let yes := (fmFind st.proposal_votes proposal_id).getD 0
        { st with proposal_votes := fmInsert st.proposal_votes proposal_id (yes + vote_power) }
      else
        let no := (fmFind st.proposal_votes_against proposal_id).getD 0
        { st with proposal_votes_against := fmInsert st.proposal_votes_against proposal_id (no + vote_power) }
    let history := (fmFind st1.voter_history sender).getD []
    .ok { st1 with voter_history := fmInsert st1.voter_history sender (history ++ [proposal_id]) }

/-- `finalize_proposal` (layer4_governance.py, lines 202–247).  Returns the
post state and the resulting status string. -/
def finalize_proposal (st : GovState) (proposal_id : Nat) :
    Except GovErr (GovState × String) :=
  if ¬ fmContains st.proposal_status proposal_id then .error .ProposalNotFound
  else if fmFind st.proposal_status proposal_id ≠ some "ACTIVE" then
    .error .ProposalNotActive
  else
    let yes_votes := (fmFind st.proposal_votes proposal_id).getD 0
    let no_votes := (fmFind st.proposal_votes_against proposal_id).getD 0
    let total_votes := yes_votes + no_votes
    if total_votes < st.quorum_threshold then
      .ok ({ st with proposal_status := fmInsert st.proposal_status proposal_id "QUORUM_NOT_MET" },
           "QUORUM_NOT_MET")
    else
      let approval_pct := yes_votes * 10000 / total_votes
      if approval_pct ≥ st.approval_threshold then
        .ok ({ st with proposal_status := fmInsert st.proposal_status proposal_id "PASSED" },
             "PASSED")
      else
        .ok ({ st with proposal_status := fmInsert st.proposal_status proposal_id "REJECTED" },
             "REJECTED")

/-- `register_oracle` (layer4_governance.py, lines 249–272). -/
def register_oracle (st : GovState) (oracle_addr : String)
    (initial_reputation : Nat) : GovState :=
  { st with
    approved_oracles := fmInsert st.approved_oracles oracle_addr true
    oracle_reputation := fmInsert st.oracle_reputation oracle_addr initial_reputation }

/-- `slash_oracle` (layer4_governance.py, lines 274–306). -/
def slash_oracle (st : GovState) (oracle_addr : String) (slash_amount : Nat) :
    GovState :=
  let current_rep := (fmFind st.oracle_reputation oracle_addr).getD 0
  let new_rep := if current_rep < slash_amount then 0 else current_rep - slash_amount
  let st1 := { st with oracle_reputation := fmInsert st.oracle_reputation oracle_addr new_rep }
  if new_rep < 100 then
    { st1 with approved_oracles := fmInsert st1.approved_oracles oracle_addr false }
  else st1

/-- The metadata string written by `file_dispute` (lines 328–333). -/
def disputeMetadata (sender reason : String) (amount now : Nat) : String :=
  "\x7b\x22disputer\x22:\x22" ++ sender ++ "\x22,\x22reason\x22:\x22" ++ reason ++
    "\x22,\x22amount\x22:" ++ toString amount ++ ",\x22timestamp\x22:" ++
    toString now ++ "\x7d"

/-- `file_dispute` (layer4_governance.py, lines 308–345). -/
def file_dispute (st : GovState) (claim_key : List Nat) (sender reason : String)
    (disputed_amount now : Nat) : GovState :=
  { st with disputes := fmInsert st.disputes claim_key (disputeMetadata sender reason disputed_amount now) }

/-- `get_proposal_status` (layer4_governance.py, lines 347–364). -/
def get_proposal_status (st : GovState) (proposal_id : Nat) : String :=
  (fmFind st.proposal_status proposal_id).getD "NOT_FOUND"

/-- All GovernanceContract calls that can change state (`get_proposal_status`
and `get_vote_count` are readonly). -/
inductive GovOp
  | initGov (quorum approval_pct : Nat)
  | create (proposal_type description : String) (target_value : Nat)
      (sender : String) (now : Nat)
  | castVote (sender : String) (proposal_id : Nat) (vote_yes : Bool)
      (vote_power : Nat)
  | finalize (proposal_id : Nat)
  | regOracle (oracle_addr : String) (initial_reputation : Nat)
  | slash (oracle_addr : String) (slash_amount : Nat)
  | dispute (claim_key : List Nat) (sender reason : String)
      (disputed_amount now : Nat)

/-- One GovernanceContract call: a failing call aborts its group and leaves
the state unchanged. -/
def govStep (st : GovState) : GovOp → GovState
  | .initGov q a =>
    match initialize_governance st q a with
    | .ok st' => st'
    | .error _ => st
  | .create t d v s n => (create_proposal st t d v s n).1
  | .castVote s p y pw =>
    match vote st s p y pw with
    | .ok st' => st'
    | .error _ => st
  | .finalize p =>
    match finalize_proposal st p with
    | .ok (st', _) => st'
    | .error _ => st
  | .regOracle a r => register_oracle st a r
  | .slash a n => slash_oracle st a n
  | .dispute k s r a n => file_dispute st k s r a n

/-! ## Layer 0 Enhanced: EnhancedClaimIngestionContract (`layer0_enhanced.py`)

Same hash-function parameter as the base ingestion layer.  Advisory events
(`RECALLED_DRUG_DISPENSED`, `EXPIRED_DRUG_DISPENSED`, …) are returned as an
emitted-event list: they never block the call. -/

structure EnhState where
  claim_hashes : List (List Nat × Bool)
  claim_records : List (List Nat × String)
  batch_registry : List (String × String)
  batch_to_claims : List (String × List (List Nat))
  recalled_batches : List (String × Bool)
  recall_events : List (String × String)
  expiring_inventory : List (String × Nat)
  pharmacy_countries : List (String × String)
deriving DecidableEq, Repr

def EnhState.init : EnhState := ⟨[], [], [], [], [], [], [], []⟩

inductive EnhErr
  | AuthenticationMissing
  | DuplicateClaim
  | BatchClaimsMissing
deriving DecidableEq, Repr

inductive EnhEvent
  | RecalledDrugDispensed (claim_key : List Nat) (batch_id npi : String)
  | ExpiredDrugDispensed (claim_key : List Nat) (ndc npi : String) (expiry : Nat)
  | ClaimSubmittedEnhanced (claim_key : List Nat)
      (claim_id ndc batch_id country : String) (expiry : Nat)
  | DrugRecallIssued (batch_id reason : String) (severity affected now : Nat)
deriving DecidableEq, Repr

/-- The batch identifier string built in layer0_enhanced.py
(`f"{ndc_code}-{batch_number}"`, lines 108, 200, 242, 264). -/
def batchId (ndc_code batch_number : String) : String :=
  ndc_code ++ "-" ++ batch_number

/-- The `claim_data` concatenation of `submit_claim_enhanced` (lines 94–101):
unlike the base layer it covers batch and lot numbers and omits the
oracle signature. -/
def enhClaimData (claim_id ndc_code pharmacy_npi : String) (dispense_date : Nat)
    (batch_number lot_number : String) : List Nat :=
  strBytes claim_id ++ strBytes ndc_code ++ strBytes pharmacy_npi ++
    u64Bytes dispense_date ++ strBytes batch_number ++ strBytes lot_number

def enhClaimFingerprint (hash : List Nat → List Nat)
    (claim_id ndc_code pharmacy_npi : String) (dispense_date : Nat)
    (batch_number lot_number : String) : List Nat :=
  hash (enhClaimData claim_id ndc_code pharmacy_npi dispense_date
    batch_number lot_number)

/-- The enhanced metadata string (lines 131–140). -/
def enhMetadata (claim_id ndc_code pharmacy_npi : String) (dispense_date : Nat)
    (batch_number lot_number : String) (expiration_date : Nat)
    (country_code : String) : String :=
  "\x7b\x22claim_id\x22:\x22" ++ claim_id ++ "\x22,\x22ndc\x22:\x22" ++ ndc_code ++
    "\x22,\x22npi\x22:\x22" ++ pharmacy_npi ++ "\x22,\x22date\x22:" ++
    toString dispense_date ++ ",\x22batch\x22:\x22" ++ batch_number ++
    "\x22,\x22lot\x22:\x22" ++ lot_number ++ "\x22,\x22expiry\x22:" ++
    toString expiration_date ++ ",\x22country\x22:\x22" ++ country_code ++ "\x22\x7d"

/-- The batch registration metadata string (lines 148–152). -/
def batchMetadata (ndc_code batch_number : String) (now : Nat) : String :=
  "\x7b\x22ndc\x22:\x22" ++ ndc_code ++ "\x22,\x22batch\x22:\x22" ++ batch_number ++
    "\x22,\x22registered\x22:" ++ toString now ++ "\x7d"

/-- `submit_claim_enhanced` (layer0_enhanced.py, lines 60–178).  `now` is
`Global.latest_timestamp`.  Returns the post state, the emitted events in
order, and the claim key.  The read of `self.batch_to_claims[batch_id]` on
line 157 is unguarded in the source; `BatchClaimsMissing` models the ledger
failure on an absent box (unreachable when `batch_registry` and
`batch_to_claims` track the same batches, as every operation maintains). -/
def submit_claim_enhanced (hash : List Nat → List Nat) (st : EnhState)
    (claim_id ndc_code pharmacy_npi : String) (dispense_date : Nat)
    (oracle_sig : List Nat) (batch_number lot_number : String)
    (expiration_date : Nat) (country_code : String) (now : Nat) :
    Except EnhErr (EnhState × List EnhEvent × List Nat) :=
  if oracle_sig.length = 0 then .error .AuthenticationMissing
  else
    let claim_key := enhClaimFingerprint hash claim_id ndc_code pharmacy_npi
      dispense_date batch_number lot_number
    if fmContains st.claim_hashes claim_key then .error .DuplicateClaim
    else
      let batch_id := batchId ndc_code batch_number
      let recallEvents : List EnhEvent :=
        if fmContains st.recalled_batches batch_id then
          [.RecalledDrugDispensed claim_key batch_id pharmacy_npi]
        else []
      let expiryEvents : List EnhEvent :=
        if expiration_date < now then
          [.ExpiredDrugDispensed claim_key ndc_code pharmacy_npi expiration_date]
        else []
      let meta := enhMetadata claim_id ndc_code pharmacy_npi dispense_date
        batch_number lot_number expiration_date country_code
      let st1 : EnhState :=
        { st with
          claim_hashes := fmInsert st.claim_hashes claim_key true
          claim_records := fmInsert st.claim_records claim_key meta }
      let st2 : EnhState :=
        if fmContains st1.batch_registry batch_id then st1
        else
          { st1 with
            batch_registry := fmInsert st1.batch_registry batch_id
              (batchMetadata ndc_code batch_number now)
            batch_to_claims := fmInsert st1.batch_to_claims batch_id [] }
      match fmFind st2.batch_to_claims batch_id with
      | none => .error .BatchClaimsMissing
      | some batch_claims =>
        let st3 : EnhState :=
          { st2 with
            batch_to_claims := fmInsert st2.batch_to_claims batch_id
              (batch_claims ++ [claim_key])
            pharmacy_countries := fmInsert st2.pharmacy_countries pharmacy_npi
              country_code
            expiring_inventory := fmInsert st2.expiring_inventory ndc_code
              expiration_date }
        .ok (st3,
          recallEvents ++ expiryEvents ++
            [.ClaimSubmittedEnhanced claim_key claim_id ndc_code batch_id
              country_code expiration_date],
          claim_key)

/-- `issue_recall` (layer0_enhanced.py, lines 180–224).  Never fails;
returns the post state, the emitted event and the affected-claim count. -/
def issue_recall (st : EnhState) (ndc_code batch_number recall_reason : String)
    (severity_level now : Nat) : EnhState × List EnhEvent × Nat :=
  let batch_id := batchId ndc_code batch_number
  let st1 : EnhState :=
    { st with
      recalled_batches := fmInsert st.recalled_batches batch_id true
      recall_events := fmInsert st.recall_events batch_id recall_reason }
  let affected_count :=
    match fmFind st1.batch_to_claims batch_id with
    | some affected_claims => affected_claims.length
    | none => 0
  (st1, [.DrugRecallIssued batch_id recall_reason severity_level affected_count now],
   affected_count)

/-- `is_batch_recalled` (layer0_enhanced.py, lines 248–265). -/
def is_batch_recalled (st : EnhState) (ndc_code batch_number : String) : Bool :=
  (fmFind st.recalled_batches (batchId ndc_code batch_number)).getD false

/-- `get_batch_claims` (layer0_enhanced.py, lines 226–246). -/
def get_batch_claims (st : EnhState) (ndc_code batch_number : String) : Nat :=
  match fmFind st.batch_to_claims (batchId ndc_code batch_number) with
  | some l => l.length
  | none => 0

/-- All state-mutating calls of the enhanced contract (`get_batch_claims`,
`is_batch_recalled`, `get_expiring_drugs` are readonly). -/
inductive EnhOp
  | submit (hash : List Nat → List Nat) (claim_id ndc_code pharmacy_npi : String)
      (dispense_date : Nat) (oracle_sig : List Nat)
      (batch_number lot_number : String) (expiration_date : Nat)
      (country_code : String) (now : Nat)
  | issueRecall (ndc_code batch_number recall_reason : String)
      (severity_level now : Nat)

/-- One enhanced-contract call: a failing call aborts its group and leaves
the state unchanged. -/
def enhStep (st : EnhState) : EnhOp → EnhState
  | .submit h a b c d e f g i j k =>
    match submit_claim_enhanced h st a b c d e f g i j k with
    | .ok (st', _, _) => st'
    | .error _ => st
  | .issueRecall a b c d e => (issue_recall st a b c d e).1

/-! ## Layer 5: CrossBorderSettlementContract (`layer5_crossborder.py`)

Addresses are strings.  Display-only return strings and the
`conversion_history` string (which interpolates a Python float) are not
modelled; the claims in scope do not mention them. -/

structure CBState where
  supported_currencies : List (String × Nat)
  exchange_rates : List (String × Nat)
  pharmacy_jurisdictions : List (String × String)
  jurisdiction_fees : List (String × Nat)
  cross_border_settlements : List (List Nat × String)
  kyc_verified : List (String × Bool)
  aml_flags : List (String × String)
  jurisdiction_fee_caps : List (String × Nat)
deriving DecidableEq, Repr

def CBState.init : CBState := ⟨[], [], [], [], [], [], [], []⟩

inductive CBErr
  | PharmacyNotRegistered
  | KYCNotVerified
  | JurisdictionUnknown
  | RateUnavailable
  | FeeExceedsJurisdictionCap
  | CurrencyNotSupported
deriving DecidableEq, Repr

/-- The exchange-rate key string `f"{from_currency}_{to_currency}"`
(layer5_crossborder.py, lines 104, 206, 352). -/
def rateKey (from_currency to_currency : String) : String :=
  from_currency ++ "_" ++ to_currency

/-- `update_exchange_rate` (layer5_crossborder.py, lines 84–115). -/
def update_exchange_rate (st : CBState) (from_currency to_currency : String)
    (rate : Nat) : CBState :=
  { st with exchange_rates :=
    fmInsert st.exchange_rates (rateKey from_currency to_currency) rate }

/-- `register_currency` (layer5_crossborder.py, lines 62–82). -/
def register_currency (st : CBState) (currency_code : String) (asset_id : Nat) :
    CBState :=
  { st with supported_currencies := fmInsert st.supported_currencies currency_code asset_id }

/-- `set_jurisdiction` (layer5_crossborder.py, lines 117–162). -/
def set_jurisdiction (st : CBState) (pharmacy_addr jurisdiction : String)
    (fee_bps : Nat) (kyc : Bool) : CBState :=
  let cap : Nat :=
    if jurisdiction = "US" then 300
    else if jurisdiction = "EU" then 250
    else if jurisdiction = "CA" then 200
    else 300
  { st with
    pharmacy_jurisdictions := fmInsert st.pharmacy_jurisdictions pharmacy_addr jurisdiction
    jurisdiction_fees := fmInsert st.jurisdiction_fees jurisdiction fee_bps
    kyc_verified := fmInsert st.kyc_verified pharmacy_addr kyc
    jurisdiction_fee_caps := fmInsert st.jurisdiction_fee_caps jurisdiction cap }

def hexDigit (n : Nat) : Char :=
  if n < 10 then Char.ofNat (48 + n) else Char.ofNat (87 + n)

/-- Lowercase hex encoding, model of Python `bytes.hex()`. -/
def bytesHex (b : List Nat) : String :=
  String.mk (b.foldr (fun x acc => hexDigit (x / 16 % 16) :: hexDigit (x % 16) :: acc) [])

/-- The settlement metadata string (layer5_crossborder.py, lines 236–245). -/
def cbSettlementMetadata (claim_key : List Nat) (usd_amount : Nat)
    (target_currency : String) (converted_amount exchange_rate : Nat)
    (jurisdiction : String) (fee now : Nat) : String :=
  "\x7b\x22claim\x22:\x22" ++ bytesHex claim_key ++ "\x22,\x22usd_amount\x22:" ++
    toString usd_amount ++ ",\x22target_currency\x22:\x22" ++ target_currency ++
    "\x22,\x22converted_amount\x22:" ++ toString converted_amount ++
    ",\x22exchange_rate\x22:" ++ toString exchange_rate ++
    ",\x22jurisdiction\x22:\x22" ++ jurisdiction ++ "\x22,\x22fee\x22:" ++
    toString fee ++ ",\x22timestamp\x22:" ++ toString now ++ "\x7d"

/-- `settle_cross_border` (layer5_crossborder.py, lines 164–270).  Returns
the post state, whether an `AML_REVIEW_REQUIRED` event was emitted, the
converted amount and the pharmacy payout.  The source's inner transfers are
a production note only (line 254); no value transfer is issued here. -/
def settle_cross_border (st : CBState) (claim_key : List Nat)
    (rebate_amount_usd : Nat) (pharmacy_addr target_currency : String)
    (now : Nat) : Except CBErr (CBState × Bool × Nat × Nat) :=
  match fmFind st.kyc_verified pharmacy_addr with
  | none => .error .PharmacyNotRegistered
  | some kyc =>
    if ¬ kyc then .error .KYCNotVerified
    else
      match fmFind st.pharmacy_jurisdictions pharmacy_addr with
      | none => .error .JurisdictionUnknown
      | some jurisdiction =>
        let amlFlagged := fmContains st.aml_flags pharmacy_addr
        match fmFind st.exchange_rates (rateKey "USD" target_currency) with
        | none => .error .RateUnavailable
        | some exchange_rate =>
          let rebate_amount_target := rebate_amount_usd * exchange_rate / 1000000
          let jurisdiction_fee_bps := (fmFind st.jurisdiction_fees jurisdiction).getD 300
          let fee_cap := (fmFind st.jurisdiction_fee_caps jurisdiction).getD 300
          if ¬ jurisdiction_fee_bps ≤ fee_cap then .error .FeeExceedsJurisdictionCap
          else
            let admin_fee := rebate_amount_target * jurisdiction_fee_bps / 10000
            let pharmacy_payout := rebate_amount_target - admin_fee
            if ¬ fmContains st.supported_currencies target_currency then
              .error .CurrencyNotSupported
            else
              let meta := cbSettlementMetadata claim_key rebate_amount_usd
                target_currency rebate_amount_target exchange_rate jurisdiction
                admin_fee now
              .ok ({ st with cross_border_settlements :=
                       fmInsert st.cross_border_settlements claim_key meta },
                   amlFlagged, rebate_amount_target, pharmacy_payout)

/-- `estimate_conversion` (layer5_crossborder.py, lines 336–359): readonly,
returns 0 when no `USD_<target>` rate is registered. -/
def estimate_conversion (st : CBState) (amount_usd : Nat)
    (target_currency : String) : Nat :=
  match fmFind st.exchange_rates (rateKey "USD" target_currency) with
  | none => 0
  | some exchange_rate => amount_usd * exchange_rate / 1000000

/-! ## Helper lemmas -/

theorem fmFind_some_mem {K V : Type} [DecidableEq K]
    {m : List (K × V)} {k : K} {v : V} (h : fmFind m k = some v) :
    (k, v) ∈ m := by
  induction m with
  | nil => simp [fmFind] at h
  | cons kv rest ih =>
    obtain ⟨k', v'⟩ := kv
    by_cases hk : k' = k
    · subst hk
      simp [fmFind] at h
      simp [h]
    · simp [fmFind, hk] at h
      exact List.mem_cons_of_mem _ (ih h)

theorem fmFind_insert_isSome {K V : Type} [DecidableEq K]
    {m : List (K × V)} {k : K} (k' : K) (v : V)
    (h : (fmFind m k).isSome) :
    (fmFind (fmInsert m k' v) k).isSome := by
  by_cases hk : k' = k
  · subst hk; simp [fmFind_insert_self]
  · rw [fmFind_insert_ne _ _ _ _ hk]; exact h

/-! ## C1 — claim deduplication and oracle-signature gating -/

/-- C1: for a fixed identity tuple and non-empty `oracle_sig`, `submit_claim`
succeeds the first time, the fingerprint it stores and returns is the
deterministic `claimFingerprint` of the fields, and an identical second call
recomputes the same fingerprint and fails as a duplicate; with an empty
`oracle_sig` the call fails with `AuthenticationMissing` and writes no state. -/
theorem submit_claim_dedup_determinism (hash : List Nat → List Nat)
    (st : IngestState) (claim_id ndc_code pharmacy_npi : String)
    (dispense_date : Nat) (oracle_sig : List Nat) :
    (oracle_sig ≠ [] →
      fmFind st.claim_hashes
        (claimFingerprint hash claim_id ndc_code pharmacy_npi dispense_date oracle_sig) = none →
      ∃ st₁,
        submit_claim hash st claim_id ndc_code pharmacy_npi dispense_date oracle_sig =
          .ok (st₁, claimFingerprint hash claim_id ndc_code pharmacy_npi dispense_date oracle_sig) ∧
        fmFind st₁.claim_hashes
          (claimFingerprint hash claim_id ndc_code pharmacy_npi dispense_date oracle_sig) = some true ∧
        submit_claim hash st₁ claim_id ndc_code pharmacy_npi dispense_date oracle_sig =
          .error .DuplicateClaim) ∧
    (oracle_sig = [] →
      submit_claim hash st claim_id ndc_code pharmacy_npi dispense_date oracle_sig =
        .error .AuthenticationMissing ∧
      submitClaimStep hash st claim_id ndc_code pharmacy_npi dispense_date oracle_sig = st) := by
  constructor
  · intro hsig hfresh
    have hlen : ¬ oracle_sig.length = 0 := by simpa using hsig
    have hcont : fmContains st.claim_hashes
        (claimFingerprint hash claim_id ndc_code pharmacy_npi dispense_date oracle_sig) = false := by
      simp [fmContains, hfresh]
    refine ⟨⟨fmInsert st.claim_hashes
        (claimFingerprint hash claim_id ndc_code pharmacy_npi dispense_date oracle_sig) true,
      fmInsert st.claim_records
        (claimFingerprint hash claim_id ndc_code pharmacy_npi dispense_date oracle_sig)
        (claimMetadata claim_id ndc_code pharmacy_npi dispense_date)⟩, ?_, ?_, ?_⟩
    · simp [submit_claim, hlen, hcont]
    · exact fmFind_insert_self _ _ _
    · simp [submit_claim, hlen, fmContains, fmFind_insert_self]
  · intro hsig
    subst hsig
    exact ⟨rfl, rfl⟩

/-- Witness for C1 at a concrete input (hash instantiated with `id`). -/
theorem submit_claim_dedup_determinism_witness :
    fmFind IngestState.init.claim_hashes (claimFingerprint id "A" "B" "C" 5 [1]) = none ∧
    (∃ st₁,
      submit_claim id IngestState.init "A" "B" "C" 5 [1] =
        .ok (st₁, claimFingerprint id "A" "B" "C" 5 [1]) ∧
      fmFind st₁.claim_hashes (claimFingerprint id "A" "B" "C" 5 [1]) = some true ∧
      submit_claim id st₁ "A" "B" "C" 5 [1] = .error .DuplicateClaim) ∧
    (submit_claim id IngestState.init "A" "B" "C" 5 [] = .error .AuthenticationMissing ∧
     submitClaimStep id IngestState.init "A" "B" "C" 5 [] = IngestState.init) :=
  ⟨rfl,
   (submit_claim_dedup_determinism id IngestState.init "A" "B" "C" 5 [1]).1
     (by decide) rfl,
   (submit_claim_dedup_determinism id IngestState.init "A" "B" "C" 5 []).2 rfl⟩

/-! ## C2 — settlement preconditions precede all value transfers -/

/-- C2: every failing run of `claim_rebate` — group too small, oracle
transaction missing, wrong type, or staking less than 1000, or fee over the
hard cap — aborts having issued no inner value transfer; in particular an
oracle payment staking under 1000 units fails with
`InvalidOracleTransaction` and issues no transfer. -/
theorem claim_rebate_checks_precede_transfers (st : EscrowState)
    (group : List GroupTxn) (rebate_amount : Nat)
    (pharmacy_addr pbm_addr : String) (oracle_txn_index : Nat) :
    (∀ e, (claim_rebate st group rebate_amount pharmacy_addr pbm_addr oracle_txn_index).2 = some e →
      (claim_rebate st group rebate_amount pharmacy_addr pbm_addr oracle_txn_index).1 = []) ∧
    (¬ group.length > 1 →
      claim_rebate st group rebate_amount pharmacy_addr pbm_addr oracle_txn_index =
        ([], some .NotInAtomicGroup)) ∧
    (∀ otxn, group.length > 1 → group.get? oracle_txn_index = some otxn →
      otxn.type = .payment → otxn.amount < 1000 →
      claim_rebate st group rebate_amount pharmacy_addr pbm_addr oracle_txn_index =
        ([], some .InvalidOracleTransaction)) := by
  refine ⟨?_, ?_, ?_⟩
  · intro e
    unfold claim_rebate
    split
    · intro _; rfl
    · split
      · intro _; rfl
      · split
        · intro _; rfl
        · split
          · intro _; rfl
          · dsimp only
            split
            · intro _; rfl
            · split <;> simp
  · intro h
    simp [claim_rebate, h]
  · intro otxn hg hget htype hamt
    have hnlt : ¬ otxn.amount ≥ 1000 := Nat.not_le.mpr hamt
    simp only [List.get?_eq_getElem?] at hget
    simp [claim_rebate, hg, hget, htype, hnlt, hamt]

/-- Witness for C2: an in-range oracle payment staking only 500 units makes
the call fail with `InvalidOracleTransaction` and issue no transfer. -/
theorem claim_rebate_checks_precede_transfers_witness :
    ([(⟨.payment, 500⟩ : GroupTxn), ⟨.applicationCall, 0⟩].length > 1) ∧
    ([(⟨.payment, 500⟩ : GroupTxn), ⟨.applicationCall, 0⟩].get? 0 = some ⟨.payment, 500⟩) ∧
    ((500 : Nat) < 1000) ∧
    claim_rebate ⟨7, 250⟩ [⟨.payment, 500⟩, ⟨.applicationCall, 0⟩] 1000000 "ph" "pbm" 0 =
      ([], some .InvalidOracleTransaction) :=
  ⟨by decide, rfl, by decide,
   (claim_rebate_checks_precede_transfers ⟨7, 250⟩
      [⟨.payment, 500⟩, ⟨.applicationCall, 0⟩] 1000000 "ph" "pbm" 0).2.2
     ⟨.payment, 500⟩ (by decide) rfl rfl (by decide)⟩

/-! ## C3 — fee-cap safety and exact payout partition -/

/-- C3: `initialize` rejects any configured admin-fee cap above 300 bps;
under a configured cap of at most 300 bps the computed fee never exceeds
the 3 % hard cap, the `FeeCapExceeded` branch of `claim_rebate` is
unreachable, and on success the first transfer pays the pharmacy exactly
`rebate_amount - admin_fee` with all transfers summing to `rebate_amount`. -/
theorem admin_fee_cap_spec (usdc admin_fee_cap_bps rebate_amount : Nat)
    (st : EscrowState) (group : List GroupTxn)
    (pharmacy_addr pbm_addr : String) (oracle_txn_index : Nat) :
    (admin_fee_cap_bps > 300 →
      escrowInitialize usdc admin_fee_cap_bps = .error .FeeCapTooHigh) ∧
    (admin_fee_cap_bps ≤ 300 →
      escrowInitialize usdc admin_fee_cap_bps = .ok ⟨usdc, admin_fee_cap_bps⟩) ∧
    (st.admin_fee_cap ≤ 300 →
      rebate_amount * st.admin_fee_cap / 10000 ≤ rebate_amount * 300 / 10000 ∧
      (claim_rebate st group rebate_amount pharmacy_addr pbm_addr oracle_txn_index).2 ≠
        some .FeeCapExceeded ∧
      (∀ ts, claim_rebate st group rebate_amount pharmacy_addr pbm_addr oracle_txn_index =
          (ts, none) →
        ts.head? = some ⟨st.usdc_asset_id,
          rebate_amount - rebate_amount * st.admin_fee_cap / 10000, pharmacy_addr⟩ ∧
        (ts.map Transfer.asset_amount).sum = rebate_amount)) := by
  refine ⟨?_, ?_, ?_⟩
  · intro h
    simp [escrowInitialize, Nat.not_le.mpr h]
  · intro h
    simp [escrowInitialize, h]
  · intro hcap
    have hmono : rebate_amount * st.admin_fee_cap / 10000 ≤ rebate_amount * 300 / 10000 :=
      Nat.div_le_div_right (Nat.mul_le_mul (Nat.le_refl rebate_amount) hcap)
    have hfee_le : rebate_amount * st.admin_fee_cap / 10000 ≤ rebate_amount := by
      calc rebate_amount * st.admin_fee_cap / 10000
          ≤ rebate_amount * 10000 / 10000 :=
            Nat.div_le_div_right
              (Nat.mul_le_mul (Nat.le_refl rebate_amount) (le_trans hcap (by norm_num)))
        _ = rebate_amount := Nat.mul_div_cancel rebate_amount (by norm_num)
    refine ⟨hmono, ?_, ?_⟩
    · unfold claim_rebate
      split
      · simp
      · split
        · simp
        · split
          · simp
          · split
            · simp
            · dsimp only
              split
              · rename_i hlt
                exact absurd hmono hlt
              · split <;> simp
    · intro ts hts
      unfold claim_rebate at hts
      split at hts
      · simp at hts
      · split at hts
        · simp at hts
        · split at hts
          · simp at hts
          · split at hts
            · simp at hts
            · dsimp only at hts
              split at hts
              · simp at hts
              · split at hts
                · injection hts with h1 h2
                  subst h1
                  constructor
                  · rfl
                  · simp [Nat.sub_add_cancel hfee_le]
                · rename_i hnpos
                  injection hts with h1 h2
                  subst h1
                  have hz : rebate_amount * st.admin_fee_cap / 10000 = 0 :=
                    Nat.eq_zero_of_not_pos hnpos
                  constructor
                  · rfl
                  · simp [hz]

/-- Witness for C3: cap 400 is rejected at `initialize`; with cap 250 the
settlement of 1 000 000 units pays 975 000 to the pharmacy and 25 000 in
fees, partitioning the rebate exactly. -/
theorem admin_fee_cap_spec_witness :
    ((400 : Nat) > 300) ∧ escrowInitialize 7 400 = .error .FeeCapTooHigh ∧
    ((250 : Nat) ≤ 300) ∧
    ([(⟨7, 975000, "ph"⟩ : Transfer), ⟨7, 25000, "pbm"⟩].head? =
       some ⟨(⟨7, 250⟩ : EscrowState).usdc_asset_id, 1000000 - 1000000 * 250 / 10000, "ph"⟩ ∧
     ([(⟨7, 975000, "ph"⟩ : Transfer), ⟨7, 25000, "pbm"⟩].map Transfer.asset_amount).sum = 1000000) :=
  ⟨by decide, (admin_fee_cap_spec 7 400 0 ⟨0, 0⟩ [] "" "" 0).1 (by decide),
   by decide,
   ((admin_fee_cap_spec 7 400 1000000 ⟨7, 250⟩ [⟨.payment, 2000⟩, ⟨.applicationCall, 0⟩]
       "ph" "pbm" 0).2.2 (by decide)).2.2
     [⟨7, 975000, "ph"⟩, ⟨7, 25000, "pbm"⟩] (by decide)⟩

/-! ## C4/C5/C10 — rebate-engine lemmas -/

/-- Shape of a successful `calculate_accrual`: the manufacturer's running
total existed and is replaced by its old value plus the returned amount;
the schedule table is untouched. -/
theorem calculate_accrual_ok_shape {st : RebateState} {claim_key : List Nat}
    {manufacturer : String} {wac_price current_volume : Nat}
    {st' : RebateState} {amount : Nat}
    (h : calculate_accrual st claim_key manufacturer wac_price current_volume =
      .ok (st', amount)) :
    ∃ t, fmFind st.total_accrued manufacturer = some t ∧
      st'.total_accrued = fmInsert st.total_accrued manufacturer (t + amount) ∧
      st'.tier_schedules = st.tier_schedules := by
  unfold calculate_accrual at h
  cases hs : fmFind st.tier_schedules manufacturer with
  | none =>
    rw [hs] at h
    exact absurd h (by simp)
  | some sched =>
    obtain ⟨base_bps, threshold, bonus_bps⟩ := sched
    rw [hs] at h
    dsimp only at h
    cases ht : fmFind st.total_accrued manufacturer with
    | none =>
      rw [ht] at h
      exact absurd h (by simp)
    | some t =>
      rw [ht] at h
      dsimp only at h
      injection h with hpair
      injection hpair with ha hb
      subst ha
      subst hb
      exact ⟨t, rfl, rfl, rfl⟩

/-- C4: for a registered schedule `(base, threshold, bonus)` (with the
running total present, as every reachable state has), `calculate_accrual`
returns `⌊wac·base/10000⌋` when `volume ≤ threshold` and
`⌊wac·(base+bonus)/10000⌋` when `volume > threshold`; it fails with
`ManufacturerNotRegistered` when no schedule exists.  The spec's example
(base 1500, threshold 1000, bonus 500, wac 100 000 000) yields 15 000 000
at volume 1000 and 20 000 000 at volume 1001. -/
theorem calculate_accrual_tier_spec (st : RebateState) (claim_key : List Nat)
    (manufacturer : String) (wac_price current_volume base threshold bonus : Nat) :
    (fmFind st.tier_schedules manufacturer = some (base, threshold, bonus) →
      (fmFind st.total_accrued manufacturer).isSome →
      (current_volume ≤ threshold →
        ∃ st', calculate_accrual st claim_key manufacturer wac_price current_volume =
          .ok (st', wac_price * base / 10000)) ∧
      (current_volume > threshold →
        ∃ st', calculate_accrual st claim_key manufacturer wac_price current_volume =
          .ok (st', wac_price * (base + bonus) / 10000))) ∧
    (fmFind st.tier_schedules manufacturer = none →
      calculate_accrual st claim_key manufacturer wac_price current_volume =
        .error .ManufacturerNotRegistered) ∧
    ((calculate_accrual (register_schedule RebateState.init "M" 1500 1000 500 false)
        [1] "M" 100000000 1000).toOption.map Prod.snd = some 15000000) ∧
    ((calculate_accrual (register_schedule RebateState.init "M" 1500 1000 500 false)
        [1] "M" 100000000 1001).toOption.map Prod.snd = some 20000000) := by
  refine ⟨?_, ?_, by decide, by decide⟩
  · intro hsched htot
    obtain ⟨t, ht⟩ := Option.isSome_iff_exists.mp htot
    constructor
    · intro hvol
      refine ⟨⟨st.tier_schedules,
        fmInsert st.accrued_liabilities claim_key (wac_price * base / 10000),
        fmInsert st.total_accrued manufacturer (t + wac_price * base / 10000)⟩, ?_⟩
      simp [calculate_accrual, hsched, ht, Nat.not_lt.mpr hvol]
    · intro hvol
      refine ⟨⟨st.tier_schedules,
        fmInsert st.accrued_liabilities claim_key (wac_price * (base + bonus) / 10000),
        fmInsert st.total_accrued manufacturer (t + wac_price * (base + bonus) / 10000)⟩, ?_⟩
      simp [calculate_accrual, hsched, ht, hvol]
  · intro hnone
    simp [calculate_accrual, hnone]

/-- Witness for C4 at the spec's example schedule. -/
theorem calculate_accrual_tier_spec_witness :
    (fmFind (register_schedule RebateState.init "M" 1500 1000 500 false).tier_schedules "M" =
       some (1500, 1000, 500)) ∧
    ((fmFind (register_schedule RebateState.init "M" 1500 1000 500 false).total_accrued "M").isSome) ∧
    ((1000 : Nat) ≤ 1000) ∧
    (∃ st', calculate_accrual (register_schedule RebateState.init "M" 1500 1000 500 false)
        [1] "M" 100000000 1000 = .ok (st', 100000000 * 1500 / 10000)) ∧
    (∃ st', calculate_accrual (register_schedule RebateState.init "M" 1500 1000 500 false)
        [1] "M" 100000000 1001 = .ok (st', 100000000 * (1500 + 500) / 10000)) :=
  ⟨by decide, by decide, by decide,
   ((calculate_accrual_tier_spec (register_schedule RebateState.init "M" 1500 1000 500 false)
       [1] "M" 100000000 1000 1500 1000 500).1 (by decide) (by decide)).1 (by decide),
   ((calculate_accrual_tier_spec (register_schedule RebateState.init "M" 1500 1000 500 false)
       [1] "M" 100000000 1001 1500 1000 500).1 (by decide) (by decide)).2 (by decide)⟩

/-- C5: a successful `calculate_accrual` adds exactly the returned amount to
the manufacturer's total — also on recomputation for an existing
fingerprint, which double-counts (spec §9) — and no RebateEngine operation
ever decreases any manufacturer's total.  The concrete conjunct replays the
double-count: accruing the same claim key twice leaves the per-claim record
at 15 000 000 but the total at 30 000 000. -/
theorem manufacturer_total_monotone (st : RebateState) (claim_key : List Nat)
    (manufacturer : String) (wac_price current_volume : Nat) :
    (∀ st' amount,
      calculate_accrual st claim_key manufacturer wac_price current_volume =
        .ok (st', amount) →
      get_manufacturer_total st' manufacturer =
        get_manufacturer_total st manufacturer + amount) ∧
    (∀ op m', get_manufacturer_total st m' ≤ get_manufacturer_total (rebateStep st op) m') ∧
    (get_manufacturer_total
        (rebateStep (rebateStep (register_schedule RebateState.init "M" 1500 1000 500 false)
            (.accrue [1] "M" 100000000 0))
          (.accrue [1] "M" 100000000 0)) "M" = 30000000) ∧
    (fmFind (rebateStep (rebateStep (register_schedule RebateState.init "M" 1500 1000 500 false)
          (.accrue [1] "M" 100000000 0))
        (.accrue [1] "M" 100000000 0)).accrued_liabilities [1] = some 15000000) := by
  refine ⟨?_, ?_, by decide, by decide⟩
  · intro st' amount h
    obtain ⟨t, ht, htot, -⟩ := calculate_accrual_ok_shape h
    simp [get_manufacturer_total, htot, fmFind_insert_self, ht]
  · intro op m'
    cases op with
    | register m b t bo e =>
      unfold rebateStep register_schedule
      dsimp only
      split
      · exact Nat.le_refl _
      · by_cases hm : m = m'
        · subst hm
          rename_i hnc
          have : fmFind st.total_accrued m = none := by
            simp [fmContains] at hnc
            exact Option.not_isSome_iff_eq_none.mp (by simpa using hnc)
          simp [get_manufacturer_total, this, fmFind_insert_self]
        · simp [get_manufacturer_total, fmFind_insert_ne _ _ _ _ hm]
    | accrue k m w v =>
      unfold rebateStep
      dsimp only
      split
      · rename_i st' amt h
        obtain ⟨t, ht, htot, -⟩ := calculate_accrual_ok_shape h
        by_cases hm : m = m'
        · subst hm
          simp [get_manufacturer_total, htot, fmFind_insert_self, ht]
        · simp [get_manufacturer_total, htot, fmFind_insert_ne _ _ _ _ hm]
      · exact Nat.le_refl _

/-- Witness for C5: the accrual of the spec's example adds exactly its
returned amount to the "M" total. -/
theorem manufacturer_total_monotone_witness :
    calculate_accrual (register_schedule RebateState.init "M" 1500 1000 500 false)
        [1] "M" 100000000 0 =
      .ok ({ tier_schedules := [("M", (1500, 1000, 500))],
             accrued_liabilities := [([1], 15000000)],
             total_accrued := [("M", 15000000), ("M", 0)] }, 15000000) ∧
    get_manufacturer_total
        ({ tier_schedules := [("M", (1500, 1000, 500))],
           accrued_liabilities := [([1], 15000000)],
           total_accrued := [("M", 15000000), ("M", 0)] } : RebateState) "M" =
      get_manufacturer_total (register_schedule RebateState.init "M" 1500 1000 500 false) "M"
        + 15000000 :=
  ⟨rfl,
   (manufacturer_total_monotone (register_schedule RebateState.init "M" 1500 1000 500 false)
      [1] "M" 100000000 0).1 _ 15000000 rfl⟩

/-- The RebateEngine table invariant behind C10: every manufacturer with a
registered schedule also has a running-total entry. -/
def rebateInv (st : RebateState) : Prop :=
  ∀ kv ∈ st.tier_schedules, (fmFind st.total_accrued kv.1).isSome

/-- C10: the schedule/total invariant holds initially and is preserved by
every RebateEngine operation, so `calculate_accrual`'s unguarded read of
`total_accrued[manufacturer]` — reached only after the schedule check —
succeeds for every registered manufacturer. -/
theorem registered_manufacturer_total_present :
    rebateInv RebateState.init ∧
    (∀ st op, rebateInv st → rebateInv (rebateStep st op)) ∧
    (∀ st claim_key manufacturer wac_price current_volume, rebateInv st →
      (fmFind st.tier_schedules manufacturer).isSome →
      ∃ st' amount,
        calculate_accrual st claim_key manufacturer wac_price current_volume =
          .ok (st', amount)) := by
  refine ⟨?_, ?_, ?_⟩
  · intro kv hkv
    simp [RebateState.init] at hkv
  · intro st op hinv
    cases op with
    | register m b t bo e =>
      intro kv hkv
      have htier : (rebateStep st (.register m b t bo e)).tier_schedules =
          fmInsert st.tier_schedules m (b, t, bo) := by
        unfold rebateStep register_schedule
        dsimp only
        split <;> rfl
      have htotal : ∀ k, (fmFind st.total_accrued k).isSome →
          (fmFind (rebateStep st (.register m b t bo e)).total_accrued k).isSome := by
        intro k hk
        unfold rebateStep register_schedule
        dsimp only
        split
        · exact hk
        · exact fmFind_insert_isSome _ _ hk
      have hm_tot : (fmFind (rebateStep st (.register m b t bo e)).total_accrued m).isSome := by
        unfold rebateStep register_schedule
        dsimp only
        split
        · rename_i hc
          simpa [fmContains] using hc
        · simp [fmFind_insert_self]
      rw [htier] at hkv
      simp only [fmInsert] at hkv
      rcases List.mem_cons.mp hkv with h | h
      · rw [h]
        exact hm_tot
      · exact htotal kv.1 (hinv kv h)
    | accrue k m w v =>
      unfold rebateStep
      dsimp only
      split
      · rename_i st' amt h
        obtain ⟨t, ht, htot, htier⟩ := calculate_accrual_ok_shape h
        intro kv hkv
        rw [htier] at hkv
        rw [htot]
        exact fmFind_insert_isSome _ _ (hinv kv hkv)
      · exact hinv
  · intro st claim_key manufacturer wac_price current_volume hinv hsched
    obtain ⟨sched, hs⟩ := Option.isSome_iff_exists.mp hsched
    obtain ⟨base_bps, threshold, bonus_bps⟩ := sched
    have hmem := fmFind_some_mem hs
    have htot := hinv _ hmem
    obtain ⟨t, ht⟩ := Option.isSome_iff_exists.mp htot
    have ht' : fmFind st.total_accrued manufacturer = some t := ht
    refine ⟨⟨st.tier_schedules,
      fmInsert st.accrued_liabilities claim_key
        (wac_price * (if current_volume > threshold then base_bps + bonus_bps else base_bps) / 10000),
      fmInsert st.total_accrued manufacturer
        (t + wac_price * (if current_volume > threshold then base_bps + bonus_bps else base_bps) / 10000)⟩,
      wac_price * (if current_volume > threshold then base_bps + bonus_bps else base_bps) / 10000, ?_⟩
    by_cases hvol : current_volume > threshold
    · simp [calculate_accrual, hs, ht', hvol]
    · simp [calculate_accrual, hs, ht', hvol]

/-- Witness for C10 at the spec's example schedule state. -/
theorem registered_manufacturer_total_present_witness :
    rebateInv (register_schedule RebateState.init "M" 1500 1000 500 false) ∧
    (fmFind (register_schedule RebateState.init "M" 1500 1000 500 false).tier_schedules "M").isSome ∧
    (∃ st' amount,
      calculate_accrual (register_schedule RebateState.init "M" 1500 1000 500 false)
        [2] "M" 50000000 7 = .ok (st', amount)) :=
  ⟨by unfold rebateInv; decide, by decide,
   registered_manufacturer_total_present.2.2
     (register_schedule RebateState.init "M" 1500 1000 500 false)
     [2] "M" 50000000 7 (by unfold rebateInv; decide) (by decide)⟩

/-! ## C6 — finalize_proposal outcome rules -/

/-- C6: on an ACTIVE proposal, `finalize_proposal` yields QUORUM_NOT_MET
when the tally misses the quorum, otherwise PASSED exactly when
`⌊yes·10000/total⌋` reaches the approval threshold and REJECTED otherwise;
it fails on a missing or already-finalized proposal.  With the initial
parameters (quorum 10000, approval 6667): 7000/2000 → QUORUM_NOT_MET,
7000/3000 → PASSED, 6000/4000 → REJECTED. -/
theorem finalize_proposal_spec (st : GovState) (proposal_id : Nat) :
    (fmFind st.proposal_status proposal_id = some "ACTIVE" →
      ((fmFind st.proposal_votes proposal_id).getD 0 +
          (fmFind st.proposal_votes_against proposal_id).getD 0 < st.quorum_threshold →
        finalize_proposal st proposal_id =
          .ok ({ st with proposal_status :=
                   fmInsert st.proposal_status proposal_id "QUORUM_NOT_MET" },
               "QUORUM_NOT_MET")) ∧
      (¬ (fmFind st.proposal_votes proposal_id).getD 0 +
          (fmFind st.proposal_votes_against proposal_id).getD 0 < st.quorum_threshold →
        ((fmFind st.proposal_votes proposal_id).getD 0 * 10000 /
            ((fmFind st.proposal_votes proposal_id).getD 0 +
              (fmFind st.proposal_votes_against proposal_id).getD 0) ≥
            st.approval_threshold →
          finalize_proposal st proposal_id =
            .ok ({ st with proposal_status :=
                     fmInsert st.proposal_status proposal_id "PASSED" }, "PASSED")) ∧
        (¬ (fmFind st.proposal_votes proposal_id).getD 0 * 10000 /
            ((fmFind st.proposal_votes proposal_id).getD 0 +
              (fmFind st.proposal_votes_against proposal_id).getD 0) ≥
            st.approval_threshold →
          finalize_proposal st proposal_id =
            .ok ({ st with proposal_status :=
                     fmInsert st.proposal_status proposal_id "REJECTED" }, "REJECTED")))) ∧
    (fmFind st.proposal_status proposal_id = none →
      finalize_proposal st proposal_id = .error .ProposalNotFound) ∧
    (∀ s, fmFind st.proposal_status proposal_id = some s → s ≠ "ACTIVE" →
      finalize_proposal st proposal_id = .error .ProposalNotActive) ∧
    (get_proposal_status
        (govStep (govStep (govStep (create_proposal GovState.init "T" "d" 0 "p" 0).1
            (.castVote "a" 1 true 7000)) (.castVote "b" 1 false 2000)) (.finalize 1)) 1 =
      "QUORUM_NOT_MET") ∧
    (get_proposal_status
        (govStep (govStep (govStep (create_proposal GovState.init "T" "d" 0 "p" 0).1
            (.castVote "a" 1 true 7000)) (.castVote "b" 1 false 3000)) (.finalize 1)) 1 =
      "PASSED") ∧
    (get_proposal_status
        (govStep (govStep (govStep (create_proposal GovState.init "T" "d" 0 "p" 0).1
            (.castVote "a" 1 true 6000)) (.castVote "b" 1 false 4000)) (.finalize 1)) 1 =
      "REJECTED") := by
  refine ⟨?_, ?_, ?_, by decide, by decide, by decide⟩
  · intro hact
    refine ⟨?_, ?_⟩
    · intro hq
      simp [finalize_proposal, fmContains, hact, hq]
    · intro hq
      refine ⟨?_, ?_⟩
      · intro happ
        simp [finalize_proposal, fmContains, hact, hq, happ]
      · intro happ
        simp [finalize_proposal, fmContains, hact, hq, happ]
  · intro hnone
    simp [finalize_proposal, fmContains, hnone]
  · intro s hs hne
    simp [finalize_proposal, fmContains, hs, hne]

/-- Witness for C6: the PASSED scenario (7000 yes, 3000 no, quorum 10000,
approval threshold 6667) finalizes to PASSED. -/
theorem finalize_proposal_spec_witness :
    (fmFind (govStep (govStep (create_proposal GovState.init "T" "d" 0 "p" 0).1
        (.castVote "a" 1 true 7000)) (.castVote "b" 1 false 3000)).proposal_status 1 =
      some "ACTIVE") ∧
    finalize_proposal
        (govStep (govStep (create_proposal GovState.init "T" "d" 0 "p" 0).1
          (.castVote "a" 1 true 7000)) (.castVote "b" 1 false 3000)) 1 =
      .ok ({ (govStep (govStep (create_proposal GovState.init "T" "d" 0 "p" 0).1
                (.castVote "a" 1 true 7000)) (.castVote "b" 1 false 3000)) with
              proposal_status :=
                fmInsert (govStep (govStep (create_proposal GovState.init "T" "d" 0 "p" 0).1
                    (.castVote "a" 1 true 7000)) (.castVote "b" 1 false 3000)).proposal_status
                  1 "PASSED" },
           "PASSED") :=
  ⟨by decide,
   (((finalize_proposal_spec
        (govStep (govStep (create_proposal GovState.init "T" "d" 0 "p" 0).1
          (.castVote "a" 1 true 7000)) (.castVote "b" 1 false 3000)) 1).1
      (by decide)).2 (by decide)).1 (by decide)⟩

/-! ## C7 — terminal proposal states are final -/

/-- The terminal proposal statuses. -/
def isTerminal (s : String) : Bool :=
  s = "PASSED" || s = "REJECTED" || s = "QUORUM_NOT_MET"

theorem isTerminal_ne_active {s : String} (h : isTerminal s = true) :
    s ≠ "ACTIVE" := by
  intro he
  subst he
  exact absurd h (by decide)

/-- Counter domination: every proposal id with a status is at most the
current counter, so the id `counter + 1` allocated by `create_proposal` is
always fresh. -/
def counterDom (st : GovState) : Prop :=
  ∀ kv ∈ st.proposal_status, kv.1 ≤ st.proposal_counter

theorem initialize_governance_ok_shape {st : GovState} {q a : Nat}
    {st' : GovState} (h : initialize_governance st q a = .ok st') :
    st' = { st with quorum_threshold := q, approval_threshold := a } := by
  unfold initialize_governance at h
  split at h
  · exact absurd h (by simp)
  · split at h
    · exact absurd h (by simp)
    · injection h with h1
      exact h1.symm

theorem create_proposal_fields (st : GovState) (t d : String) (v : Nat)
    (s : String) (n : Nat) :
    (create_proposal st t d v s n).1.proposal_status =
      fmInsert st.proposal_status (st.proposal_counter + 1) "ACTIVE" ∧
    (create_proposal st t d v s n).1.proposal_votes =
      fmInsert st.proposal_votes (st.proposal_counter + 1) 0 ∧
    (create_proposal st t d v s n).1.proposal_votes_against =
      fmInsert st.proposal_votes_against (st.proposal_counter + 1) 0 ∧
    (create_proposal st t d v s n).1.proposal_counter = st.proposal_counter + 1 := by
  unfold create_proposal
  dsimp only
  split <;> exact ⟨rfl, rfl, rfl, rfl⟩

theorem vote_ok_shape {st : GovState} {sender : String} {pid : Nat}
    {vote_yes : Bool} {pw : Nat} {st' : GovState}
    (h : vote st sender pid vote_yes pw = .ok st') :
    fmFind st.proposal_status pid = some "ACTIVE" ∧
    st'.proposal_status = st.proposal_status ∧
    st'.proposal_counter = st.proposal_counter ∧
    (∀ q, q ≠ pid →
      fmFind st'.proposal_votes q = fmFind st.proposal_votes q ∧
      fmFind st'.proposal_votes_against q = fmFind st.proposal_votes_against q) := by
  unfold vote at h
  split at h
  · exact absurd h (by simp)
  · split at h
    · exact absurd h (by simp)
    · rename_i hact
      have hactive : fmFind st.proposal_status pid = some "ACTIVE" :=
        Decidable.not_not.mp hact
      split at h
      · exact absurd h (by simp)
      · dsimp only at h
        cases vote_yes with
        | true =>
          simp only [if_pos rfl] at h
          injection h with h1
          subst h1
          refine ⟨hactive, rfl, rfl, ?_⟩
          intro q hq
          exact ⟨fmFind_insert_ne _ _ _ _ (fun he => hq he.symm), rfl⟩
        | false =>
          rw [if_neg Bool.false_ne_true] at h
          injection h with h1
          subst h1
          refine ⟨hactive, rfl, rfl, ?_⟩
          intro q hq
          exact ⟨rfl, fmFind_insert_ne _ _ _ _ (fun he => hq he.symm)⟩

theorem finalize_proposal_ok_shape {st : GovState} {pid : Nat}
    {st' : GovState} {r : String}
    (h : finalize_proposal st pid = .ok (st', r)) :
    fmFind st.proposal_status pid = some "ACTIVE" ∧
    st'.proposal_counter = st.proposal_counter ∧
    st'.proposal_votes = st.proposal_votes ∧
    st'.proposal_votes_against = st.proposal_votes_against ∧
    st'.proposal_status = fmInsert st.proposal_status pid r := by
  unfold finalize_proposal at h
  split at h
  · exact absurd h (by simp)
  · split at h
    · exact absurd h (by simp)
    · rename_i hact
      have hactive : fmFind st.proposal_status pid = some "ACTIVE" :=
        Decidable.not_not.mp hact
      dsimp only at h
      split at h
      · injection h with h1
        injection h1 with ha hb
        subst ha
        subst hb
        exact ⟨hactive, rfl, rfl, rfl, rfl⟩
      · split at h
        · injection h with h1
          injection h1 with ha hb
          subst ha
          subst hb
          exact ⟨hactive, rfl, rfl, rfl, rfl⟩
        · injection h with h1
          injection h1 with ha hb
          subst ha
          subst hb
          exact ⟨hactive, rfl, rfl, rfl, rfl⟩

theorem slash_oracle_proposal_fields (st : GovState) (a : String) (n : Nat) :
    (slash_oracle st a n).proposal_status = st.proposal_status ∧
    (slash_oracle st a n).proposal_votes = st.proposal_votes ∧
    (slash_oracle st a n).proposal_votes_against = st.proposal_votes_against ∧
    (slash_oracle st a n).proposal_counter = st.proposal_counter := by
  unfold slash_oracle
  dsimp only
  refine ⟨?_, ?_, ?_, ?_⟩ <;> (split <;> first | rfl | (split <;> rfl))

/-- C7: proposal transitions are one-way.  Counter domination holds
initially and is preserved by every operation; under it, once a proposal's
status is PASSED / REJECTED / QUORUM_NOT_MET no operation changes that
proposal's status or tallies; `vote` fails with `ProposalNotFound` /
`ProposalNotActive` / `NoVotingPower` as specified, and
`finalize_proposal` fails on every non-ACTIVE proposal. -/
theorem proposal_terminal_final :
    counterDom GovState.init ∧
    (∀ st op, counterDom st → counterDom (govStep st op)) ∧
    (∀ st pid s, counterDom st → fmFind st.proposal_status pid = some s →
      isTerminal s = true →
      ∀ op, fmFind (govStep st op).proposal_status pid = some s ∧
        fmFind (govStep st op).proposal_votes pid = fmFind st.proposal_votes pid ∧
        fmFind (govStep st op).proposal_votes_against pid =
          fmFind st.proposal_votes_against pid) ∧
    (∀ st pid sender vote_yes power, fmFind st.proposal_status pid = none →
      vote st sender pid vote_yes power = .error .ProposalNotFound) ∧
    (∀ st pid s sender vote_yes power, fmFind st.proposal_status pid = some s →
      s ≠ "ACTIVE" → vote st sender pid vote_yes power = .error .ProposalNotActive) ∧
    (∀ st pid sender vote_yes, fmFind st.proposal_status pid = some "ACTIVE" →
      vote st sender pid vote_yes 0 = .error .NoVotingPower) ∧
    (∀ st pid s, fmFind st.proposal_status pid = some s → s ≠ "ACTIVE" →
      finalize_proposal st pid = .error .ProposalNotActive) := by
  refine ⟨?_, ?_, ?_, ?_, ?_, ?_, ?_⟩
  · intro kv hkv
    simp [GovState.init] at hkv
  · intro st op hdom
    cases op with
    | initGov q a =>
      unfold govStep
      dsimp only
      cases hg : initialize_governance st q a with
      | ok st'' =>
        dsimp only
        rw [initialize_governance_ok_shape hg]
        exact fun kv hkv => hdom kv hkv
      | error e => exact hdom
    | create t d v sender now =>
      obtain ⟨hst, hv, hva, hc⟩ := create_proposal_fields st t d v sender now
      intro kv hkv
      unfold govStep at hkv ⊢
      dsimp only at hkv ⊢
      rw [hst] at hkv
      rw [hc]
      simp only [fmInsert] at hkv
      rcases List.mem_cons.mp hkv with h | h
      · rw [h]
      · exact Nat.le_trans (hdom kv h) (Nat.le_succ _)
    | castVote sender pid2 yes pw =>
      unfold govStep
      dsimp only
      cases hg : vote st sender pid2 yes pw with
      | ok st'' =>
        dsimp only
        obtain ⟨-, hst, hc, -⟩ := vote_ok_shape hg
        intro kv hkv
        rw [hst] at hkv
        rw [hc]
        exact hdom kv hkv
      | error e => exact hdom
    | finalize pid2 =>
      unfold govStep
      dsimp only
      cases hg : finalize_proposal st pid2 with
      | ok pr =>
        obtain ⟨st'', r⟩ := pr
        dsimp only
        obtain ⟨hact, hc, -, -, hst⟩ := finalize_proposal_ok_shape hg
        intro kv hkv
        rw [hst] at hkv
        rw [hc]
        simp only [fmInsert] at hkv
        rcases List.mem_cons.mp hkv with h | h
        · have hmem := fmFind_some_mem hact
          have hle := hdom _ hmem
          rw [h]
          exact hle
        · exact hdom kv h
      | error e => exact hdom
    | regOracle a r => exact fun kv hkv => hdom kv hkv
    | slash a n =>
      obtain ⟨hst, -, -, hc⟩ := slash_oracle_proposal_fields st a n
      intro kv hkv
      unfold govStep at hkv ⊢
      dsimp only at hkv ⊢
      rw [hst] at hkv
      rw [hc]
      exact hdom kv hkv
    | dispute k sender r amt now => exact fun kv hkv => hdom kv hkv
  · intro st pid s hdom hfind hterm op
    cases op with
    | initGov q a =>
      unfold govStep
      dsimp only
      cases hg : initialize_governance st q a with
      | ok st'' =>
        dsimp only
        rw [initialize_governance_ok_shape hg]
        exact ⟨hfind, rfl, rfl⟩
      | error e => exact ⟨hfind, rfl, rfl⟩
    | create t d v sender now =>
      obtain ⟨hst, hv, hva, -⟩ := create_proposal_fields st t d v sender now
      have hle : pid ≤ st.proposal_counter := hdom _ (fmFind_some_mem hfind)
      have hne : st.proposal_counter + 1 ≠ pid := by omega
      unfold govStep
      dsimp only
      rw [hst, hv, hva]
      exact ⟨by rw [fmFind_insert_ne _ _ _ _ hne]; exact hfind,
        fmFind_insert_ne _ _ _ _ hne, fmFind_insert_ne _ _ _ _ hne⟩
    | castVote sender pid2 yes pw =>
      unfold govStep
      dsimp only
      cases hg : vote st sender pid2 yes pw with
      | ok st'' =>
        dsimp only
        obtain ⟨hact, hst, -, hq⟩ := vote_ok_shape hg
        have hne : pid ≠ pid2 := by
          intro he
          subst he
          rw [hfind] at hact
          exact isTerminal_ne_active hterm (by injection hact)
        obtain ⟨h1, h2⟩ := hq pid hne
        rw [hst]
        exact ⟨hfind, h1, h2⟩
      | error e => exact ⟨hfind, rfl, rfl⟩
    | finalize pid2 =>
      unfold govStep
      dsimp only
      cases hg : finalize_proposal st pid2 with
      | ok pr =>
        obtain ⟨st'', r⟩ := pr
        dsimp only
        obtain ⟨hact, -, hv, hva, hst⟩ := finalize_proposal_ok_shape hg
        have hne : pid2 ≠ pid := by
          intro he
          subst he
          rw [hfind] at hact
          exact isTerminal_ne_active hterm (by injection hact)
        rw [hst, hv, hva]
        exact ⟨by rw [fmFind_insert_ne _ _ _ _ hne]; exact hfind, rfl, rfl⟩
      | error e => exact ⟨hfind, rfl, rfl⟩
    | regOracle a r => exact ⟨hfind, rfl, rfl⟩
    | slash a n =>
      obtain ⟨hst, hv, hva, -⟩ := slash_oracle_proposal_fields st a n
      unfold govStep
      dsimp only
      rw [hst, hv, hva]
      exact ⟨hfind, rfl, rfl⟩
    | dispute k sender r amt now => exact ⟨hfind, rfl, rfl⟩
  · intro st pid sender vote_yes power h
    simp [vote, fmContains, h]
  · intro st pid s sender vote_yes power h hne
    simp [vote, fmContains, h, hne]
  · intro st pid sender vote_yes h
    simp [vote, fmContains, h]
  · intro st pid s h hne
    simp [finalize_proposal, fmContains, h, hne]

/-- Witness for C7 at the QUORUM_NOT_MET proposal of the initial
governance state. -/
theorem proposal_terminal_final_witness :
    counterDom (govStep (create_proposal GovState.init "T" "d" 0 "p" 0).1 (.finalize 1)) ∧
    fmFind (govStep (create_proposal GovState.init "T" "d" 0 "p" 0).1
        (.finalize 1)).proposal_status 1 = some "QUORUM_NOT_MET" ∧
    isTerminal "QUORUM_NOT_MET" = true ∧
    (fmFind (govStep (govStep (create_proposal GovState.init "T" "d" 0 "p" 0).1 (.finalize 1))
          (.castVote "c" 1 true 5)).proposal_status 1 = some "QUORUM_NOT_MET" ∧
      fmFind (govStep (govStep (create_proposal GovState.init "T" "d" 0 "p" 0).1 (.finalize 1))
          (.castVote "c" 1 true 5)).proposal_votes 1 =
        fmFind (govStep (create_proposal GovState.init "T" "d" 0 "p" 0).1
            (.finalize 1)).proposal_votes 1 ∧
      fmFind (govStep (govStep (create_proposal GovState.init "T" "d" 0 "p" 0).1 (.finalize 1))
          (.castVote "c" 1 true 5)).proposal_votes_against 1 =
        fmFind (govStep (create_proposal GovState.init "T" "d" 0 "p" 0).1
            (.finalize 1)).proposal_votes_against 1) ∧
    vote (govStep (create_proposal GovState.init "T" "d" 0 "p" 0).1 (.finalize 1))
        "c" 1 true 5 = .error .ProposalNotActive ∧
    finalize_proposal (govStep (create_proposal GovState.init "T" "d" 0 "p" 0).1
        (.finalize 1)) 1 = .error .ProposalNotActive :=
  ⟨by unfold counterDom; decide, by decide, by decide,
   proposal_terminal_final.2.2.1
     (govStep (create_proposal GovState.init "T" "d" 0 "p" 0).1 (.finalize 1))
     1 "QUORUM_NOT_MET" (by unfold counterDom; decide) (by decide) (by decide)
     (.castVote "c" 1 true 5),
   proposal_terminal_final.2.2.2.2.1
     (govStep (create_proposal GovState.init "T" "d" 0 "p" 0).1 (.finalize 1))
     1 "QUORUM_NOT_MET" "c" true 5 (by decide) (by decide),
   proposal_terminal_final.2.2.2.2.2.2
     (govStep (create_proposal GovState.init "T" "d" 0 "p" 0).1 (.finalize 1))
     1 "QUORUM_NOT_MET" (by decide) (by decide)⟩

/-! ## C8 — cross-border conversion arithmetic and rate lookup -/

/-- C8: conversion uses `⌊usd·rate/1 000 000⌋` with the rate stored under
the ordered key `USD_<TARGET>`; `settle_cross_border` fails with
`RateUnavailable` when that key is absent (even though the reverse pair may
be registered — no reverse-pair derivation); after registering
`USD_EUR = 920000`, `estimate_conversion(100 000 000, "EUR") = 92 000 000`,
while registering only `EUR_USD` leaves the estimate at 0. -/
theorem cross_border_conversion_spec (st : CBState) (claim_key : List Nat)
    (rebate_amount_usd : Nat) (pharmacy_addr target_currency : String)
    (now rate : Nat) :
    (fmFind st.kyc_verified pharmacy_addr = some true →
      (fmFind st.pharmacy_jurisdictions pharmacy_addr).isSome →
      fmFind st.exchange_rates (rateKey "USD" target_currency) = none →
      settle_cross_border st claim_key rebate_amount_usd pharmacy_addr
        target_currency now = .error .RateUnavailable) ∧
    (fmFind st.exchange_rates (rateKey "USD" target_currency) = some rate →
      estimate_conversion st rebate_amount_usd target_currency =
        rebate_amount_usd * rate / 1000000) ∧
    (∀ st' aml conv payout,
      fmFind st.exchange_rates (rateKey "USD" target_currency) = some rate →
      settle_cross_border st claim_key rebate_amount_usd pharmacy_addr
          target_currency now = .ok (st', aml, conv, payout) →
      conv = rebate_amount_usd * rate / 1000000) ∧
    (estimate_conversion (update_exchange_rate CBState.init "USD" "EUR" 920000)
        100000000 "EUR" = 92000000) ∧
    (estimate_conversion (update_exchange_rate CBState.init "EUR" "USD" 920000)
        100000000 "EUR" = 0) := by
  refine ⟨?_, ?_, ?_, by decide, by decide⟩
  · intro hkyc hjur hrate
    obtain ⟨j, hj⟩ := Option.isSome_iff_exists.mp hjur
    simp [settle_cross_border, hkyc, hj, hrate]
  · intro hrate
    simp [estimate_conversion, hrate]
  · intro st' aml conv payout hrate hok
    unfold settle_cross_border at hok
    cases hk : fmFind st.kyc_verified pharmacy_addr with
    | none =>
      rw [hk] at hok
      exact absurd hok (by simp)
    | some kyc =>
      rw [hk] at hok
      dsimp only at hok
      split at hok
      · exact absurd hok (by simp)
      · cases hj : fmFind st.pharmacy_jurisdictions pharmacy_addr with
        | none =>
          rw [hj] at hok
          exact absurd hok (by simp)
        | some jurisdiction =>
          rw [hj] at hok
          dsimp only at hok
          rw [hrate] at hok
          dsimp only at hok
          split at hok
          · exact absurd hok (by simp)
          · split at hok
            · exact absurd hok (by simp)
            · injection hok with h1
              injection h1 with ha hrest
              injection hrest with hb hcd
              injection hcd with hc hd
              exact hc.symm

/-- Witness for C8: with KYC and jurisdiction registered but no rate,
settlement fails with `RateUnavailable`; with `USD_EUR = 920000`
registered, the estimate of 100 000 000 microUSD is 92 000 000. -/
theorem cross_border_conversion_spec_witness :
    (fmFind (set_jurisdiction CBState.init "ph" "EU" 200 true).kyc_verified "ph" =
      some true) ∧
    ((fmFind (set_jurisdiction CBState.init "ph" "EU" 200 true).pharmacy_jurisdictions
        "ph").isSome) ∧
    (fmFind (set_jurisdiction CBState.init "ph" "EU" 200 true).exchange_rates
        (rateKey "USD" "EUR") = none) ∧
    settle_cross_border (set_jurisdiction CBState.init "ph" "EU" 200 true)
      [1] 100000000 "ph" "EUR" 0 = .error .RateUnavailable ∧
    (fmFind (update_exchange_rate CBState.init "USD" "EUR" 920000).exchange_rates
        (rateKey "USD" "EUR") = some 920000) ∧
    estimate_conversion (update_exchange_rate CBState.init "USD" "EUR" 920000)
        100000000 "EUR" = 100000000 * 920000 / 1000000 :=
  ⟨by decide, by decide, by decide,
   (cross_border_conversion_spec (set_jurisdiction CBState.init "ph" "EU" 200 true)
      [1] 100000000 "ph" "EUR" 0 0).1 (by decide) (by decide) (by decide),
   by decide,
   (cross_border_conversion_spec (update_exchange_rate CBState.init "USD" "EUR" 920000)
      [1] 100000000 "ph" "EUR" 0 920000).2.1 (by decide)⟩

/-! ## C9 — recall permanence and non-blocking recalled-drug submission -/

/-- A successful `submit_claim_enhanced` never touches the recall table. -/
theorem submit_claim_enhanced_recall_untouched
    {hash : List Nat → List Nat} {st : EnhState}
    {claim_id ndc_code pharmacy_npi : String} {dispense_date : Nat}
    {oracle_sig : List Nat} {batch_number lot_number : String}
    {expiration_date : Nat} {country_code : String} {now : Nat}
    {st' : EnhState} {events : List EnhEvent} {key : List Nat}
    (h : submit_claim_enhanced hash st claim_id ndc_code pharmacy_npi
        dispense_date oracle_sig batch_number lot_number expiration_date
        country_code now = .ok (st', events, key)) :
    st'.recalled_batches = st.recalled_batches := by
  by_cases h1 : oracle_sig.length = 0
  · simp [submit_claim_enhanced, h1] at h
  · by_cases h2 : fmContains st.claim_hashes (enhClaimFingerprint hash claim_id
        ndc_code pharmacy_npi dispense_date batch_number lot_number) = true
    · simp [submit_claim_enhanced, h1, h2] at h
    · by_cases h3 : fmContains st.batch_registry (batchId ndc_code batch_number) = true
      · cases h4 : fmFind st.batch_to_claims (batchId ndc_code batch_number) with
        | none => simp [submit_claim_enhanced, h1, h2, h3, h4] at h
        | some l =>
          simp [submit_claim_enhanced, h1, h2, h3, h4] at h
          obtain ⟨ha, -, -⟩ := h
          rw [← ha]
      · simp [submit_claim_enhanced, h1, h2, h3, fmFind_insert_self] at h
        obtain ⟨ha, -, -⟩ := h
        rw [← ha]

/-- C9: `issue_recall` sets the recalled flag (idempotently — repeating it
leaves the flag true) and returns the batch's linked-fingerprint count (0
for a never-seen batch); no contract operation ever clears the flag; and a
subsequent `submit_claim_enhanced` for the recalled batch still commits the
claim and returns its fingerprint while emitting the critical
`RECALLED_DRUG_DISPENSED` event. -/
theorem recall_permanence_spec (st : EnhState)
    (ndc_code batch_number recall_reason : String) (severity_level now : Nat) :
    (is_batch_recalled (issue_recall st ndc_code batch_number recall_reason
        severity_level now).1 ndc_code batch_number = true) ∧
    ((issue_recall st ndc_code batch_number recall_reason severity_level now).2.2 =
      get_batch_claims st ndc_code batch_number) ∧
    (fmFind st.batch_to_claims (batchId ndc_code batch_number) = none →
      (issue_recall st ndc_code batch_number recall_reason severity_level now).2.2 = 0) ∧
    (is_batch_recalled
        (issue_recall (issue_recall st ndc_code batch_number recall_reason
            severity_level now).1 ndc_code batch_number recall_reason
          severity_level now).1 ndc_code batch_number = true) ∧
    (∀ op, is_batch_recalled st ndc_code batch_number = true →
      is_batch_recalled (enhStep st op) ndc_code batch_number = true) ∧
    (∀ hash claim_id pharmacy_npi dispense_date oracle_sig lot_number
        expiration_date country_code nowS,
      oracle_sig ≠ [] →
      fmFind st.claim_hashes (enhClaimFingerprint hash claim_id ndc_code
        pharmacy_npi dispense_date batch_number lot_number) = none →
      (fmContains st.batch_registry (batchId ndc_code batch_number) = true →
        (fmFind st.batch_to_claims (batchId ndc_code batch_number)).isSome) →
      is_batch_recalled st ndc_code batch_number = true →
      ∃ st' events,
        submit_claim_enhanced hash st claim_id ndc_code pharmacy_npi
            dispense_date oracle_sig batch_number lot_number expiration_date
            country_code nowS =
          .ok (st', events, enhClaimFingerprint hash claim_id ndc_code
            pharmacy_npi dispense_date batch_number lot_number) ∧
        fmFind st'.claim_hashes (enhClaimFingerprint hash claim_id ndc_code
          pharmacy_npi dispense_date batch_number lot_number) = some true ∧
        EnhEvent.RecalledDrugDispensed
            (enhClaimFingerprint hash claim_id ndc_code pharmacy_npi
              dispense_date batch_number lot_number)
            (batchId ndc_code batch_number) pharmacy_npi ∈ events) := by
  refine ⟨?_, ?_, ?_, ?_, ?_, ?_⟩
  · simp [is_batch_recalled, issue_recall, fmFind_insert_self]
  · rfl
  · intro h
    simp [issue_recall, h]
  · simp [is_batch_recalled, issue_recall, fmFind_insert_self]
  · intro op h
    cases op with
    | submit hs a b c d e f g i j k =>
      unfold enhStep
      dsimp only
      cases hg : submit_claim_enhanced hs st a b c d e f g i j k with
      | ok v =>
        obtain ⟨st', ev, key⟩ := v
        dsimp only
        unfold is_batch_recalled at h ⊢
        rw [submit_claim_enhanced_recall_untouched hg]
        exact h
      | error e => exact h
    | issueRecall a b c d e =>
      unfold enhStep
      dsimp only
      by_cases hk : batchId a b = batchId ndc_code batch_number
      · simp [issue_recall, is_batch_recalled, hk, fmFind_insert_self]
      · unfold is_batch_recalled at h ⊢
        simp only [issue_recall]
        rw [fmFind_insert_ne _ _ _ _ hk]
        exact h
  · intro hash claim_id pharmacy_npi dispense_date oracle_sig lot_number
      expiration_date country_code nowS hsig hfresh hbt hrec
    have hlen : ¬ oracle_sig.length = 0 := by simpa using hsig
    have hcont2 : fmContains st.claim_hashes (enhClaimFingerprint hash claim_id
        ndc_code pharmacy_npi dispense_date batch_number lot_number) = false := by
      simp [fmContains, hfresh]
    have hcontR : fmContains st.recalled_batches (batchId ndc_code batch_number) = true := by
      unfold is_batch_recalled at hrec
      unfold fmContains
      cases hfr : fmFind st.recalled_batches (batchId ndc_code batch_number) with
      | none =>
        rw [hfr] at hrec
        simp at hrec
      | some b => simp
    by_cases hreg : fmContains st.batch_registry (batchId ndc_code batch_number) = true
    · obtain ⟨l, hl⟩ := Option.isSome_iff_exists.mp (hbt hreg)
      refine ⟨⟨fmInsert st.claim_hashes (enhClaimFingerprint hash claim_id ndc_code
            pharmacy_npi dispense_date batch_number lot_number) true,
          fmInsert st.claim_records (enhClaimFingerprint hash claim_id ndc_code
            pharmacy_npi dispense_date batch_number lot_number)
            (enhMetadata claim_id ndc_code pharmacy_npi dispense_date batch_number
              lot_number expiration_date country_code),
          st.batch_registry,
          fmInsert st.batch_to_claims (batchId ndc_code batch_number)
            (l ++ [enhClaimFingerprint hash claim_id ndc_code pharmacy_npi
              dispense_date batch_number lot_number]),
          st.recalled_batches, st.recall_events,
          fmInsert st.expiring_inventory ndc_code expiration_date,
          fmInsert st.pharmacy_countries pharmacy_npi country_code⟩,
        .RecalledDrugDispensed (enhClaimFingerprint hash claim_id ndc_code
            pharmacy_npi dispense_date batch_number lot_number)
            (batchId ndc_code batch_number) pharmacy_npi ::
          ((if expiration_date < nowS then
              [EnhEvent.ExpiredDrugDispensed (enhClaimFingerprint hash claim_id
                ndc_code pharmacy_npi dispense_date batch_number lot_number)
                ndc_code pharmacy_npi expiration_date]
            else []) ++
            [.ClaimSubmittedEnhanced (enhClaimFingerprint hash claim_id ndc_code
              pharmacy_npi dispense_date batch_number lot_number) claim_id
              ndc_code (batchId ndc_code batch_number) country_code
              expiration_date]),
        ?_, ?_, ?_⟩
      · simp [submit_claim_enhanced, hlen, hcont2, hcontR, hreg, hl]
      · exact fmFind_insert_self _ _ _
      · simp
    · refine ⟨⟨fmInsert st.claim_hashes (enhClaimFingerprint hash claim_id ndc_code
            pharmacy_npi dispense_date batch_number lot_number) true,
          fmInsert st.claim_records (enhClaimFingerprint hash claim_id ndc_code
            pharmacy_npi dispense_date batch_number lot_number)
            (enhMetadata claim_id ndc_code pharmacy_npi dispense_date batch_number
              lot_number expiration_date country_code),
          fmInsert st.batch_registry (batchId ndc_code batch_number)
            (batchMetadata ndc_code batch_number nowS),
          fmInsert (fmInsert st.batch_to_claims (batchId ndc_code batch_number) [])
            (batchId ndc_code batch_number)
            ([] ++ [enhClaimFingerprint hash claim_id ndc_code pharmacy_npi
              dispense_date batch_number lot_number]),
          st.recalled_batches, st.recall_events,
          fmInsert st.expiring_inventory ndc_code expiration_date,
          fmInsert st.pharmacy_countries pharmacy_npi country_code⟩,
        .RecalledDrugDispensed (enhClaimFingerprint hash claim_id ndc_code
            pharmacy_npi dispense_date batch_number lot_number)
            (batchId ndc_code batch_number) pharmacy_npi ::
          ((if expiration_date < nowS then
              [EnhEvent.ExpiredDrugDispensed (enhClaimFingerprint hash claim_id
                ndc_code pharmacy_npi dispense_date batch_number lot_number)
                ndc_code pharmacy_npi expiration_date]
            else []) ++
            [.ClaimSubmittedEnhanced (enhClaimFingerprint hash claim_id ndc_code
              pharmacy_npi dispense_date batch_number lot_number) claim_id
              ndc_code (batchId ndc_code batch_number) country_code
              expiration_date]),
        ?_, ?_, ?_⟩
      · simp [submit_claim_enhanced, hlen, hcont2, hcontR, hreg, fmFind_insert_self]
      · exact fmFind_insert_self _ _ _
      · simp

/-- Witness for C9: recalling batch B1 of drug N on the empty ledger flags
it with 0 affected claims, and a later enhanced submission for that batch
commits and emits the critical event (hash instantiated with `id`). -/
theorem recall_permanence_spec_witness :
    ((issue_recall EnhState.init "N" "B1" "contamination" 1 0).2.2 =
      get_batch_claims EnhState.init "N" "B1") ∧
    is_batch_recalled (issue_recall EnhState.init "N" "B1" "contamination" 1 0).1
      "N" "B1" = true ∧
    (([1] : List Nat) ≠ []) ∧
    (fmFind (issue_recall EnhState.init "N" "B1" "contamination" 1 0).1.claim_hashes
      (enhClaimFingerprint id "C1" "N" "P1" 5 "B1" "L1") = none) ∧
    (∃ st' events,
      submit_claim_enhanced id
          (issue_recall EnhState.init "N" "B1" "contamination" 1 0).1
          "C1" "N" "P1" 5 [1] "B1" "L1" 99 "US" 7 =
        .ok (st', events, enhClaimFingerprint id "C1" "N" "P1" 5 "B1" "L1") ∧
      fmFind st'.claim_hashes (enhClaimFingerprint id "C1" "N" "P1" 5 "B1" "L1") =
        some true ∧
      EnhEvent.RecalledDrugDispensed (enhClaimFingerprint id "C1" "N" "P1" 5 "B1" "L1")
        (batchId "N" "B1") "P1" ∈ events) :=
  ⟨(recall_permanence_spec EnhState.init "N" "B1" "contamination" 1 0).2.1,
   (recall_permanence_spec EnhState.init "N" "B1" "contamination" 1 0).1,
   by decide, by decide,
   (recall_permanence_spec (issue_recall EnhState.init "N" "B1" "contamination" 1 0).1
      "N" "B1" "contamination" 1 0).2.2.2.2.2
     id "C1" "P1" 5 [1] "L1" 99 "US" 7 (by decide) (by decide) (by decide) (by decide)⟩

end PharmaClear
